import Mathlib

/-!
Verification of the Pokemon FastAPI service (src/main.py) against its
natural-language specification.

The upstream PokeAPI provider is modelled abstractly: a database function
from lower-cased URL keys to optional payloads.  A database returning
`none` for a key stands for a non-success HTTP status or a transport
fault on that GET (both are folded into `None` by the source fetchers).
Python exceptions that escape a function are modelled with `Except`:
`Except.error` is a raised fault propagating past the function boundary.
-/

deriving instance DecidableEq for Except

namespace PokeMain

/-! ## Raw upstream payload shapes (the fields src/main.py reads) -/

/-- One element of `pokemon_data["types"]`: a `{type: {name}}` wrapper. -/
structure TypeSlot where
  type_name : String
deriving DecidableEq

/-- One element of `pokemon_data["abilities"]`: an `{ability: {name}}` wrapper. -/
structure AbilitySlot where
  ability_name : String
deriving DecidableEq

/-- One element of `pokemon_data["stats"]`: a `{stat: {name}, base_stat}` wrapper. -/
structure StatSlot where
  stat_name : String
  base_stat : Nat
deriving DecidableEq

/-- The core payload returned by the `/pokemon/` endpoint, restricted to the
fields the source reads.  `sprites_front_default` is
`pokemon_data["sprites"]["front_default"]`; `none` models JSON null. -/
structure PokemonData where
  id : Nat
  name : String
  types : List TypeSlot
  abilities : List AbilitySlot
  stats : List StatSlot
  sprites_front_default : Option String
  height : Nat
  weight : Nat
deriving DecidableEq

/-- One element of `species_data["flavor_text_entries"]`:
`language_name` is `entry["language"]["name"]`. -/
structure FlavorTextEntry where
  language_name : String
  flavor_text : String
deriving DecidableEq

/-- The species payload returned by the `/pokemon-species/` endpoint.
`Option` on each field models presence of the JSON key: the source reads
`is_legendary` and `is_mythical` with `.get(_, False)` and tests
`"flavor_text_entries" in species_data`. -/
structure SpeciesData where
  is_legendary : Option Bool
  is_mythical : Option Bool
  flavor_text_entries : Option (List FlavorTextEntry)
deriving DecidableEq

/-! ## String helpers mirroring the Python string methods used -/

/-- Python `str.lower()` (the names involved are ASCII). -/
def pyLower (s : String) : String :=
  String.mk (s.data.map Char.toLower)

/-- Python `str.replace(a, b)` for a single-character pattern and a
single-character replacement (the only uses in the source are
`replace("-", " ")`, `replace("\n", " ")` and a form-feed variant):
every occurrence of `a` is replaced by `b`. -/
def replaceChar (a b : Char) (s : String) : String :=
  String.mk (s.data.map (fun c => if c = a then b else c))

/-- A Python value that is either a `str` or an `int`.
`fetch_pokemon_species` receives `pokemon_data["id"]`, an `int`. -/
inductive PyKey where
  | pystr : String → PyKey
  | pyint : Nat → PyKey
deriving DecidableEq

/-- Python `name_or_id.lower()` on a `str`-or-`int` value: an `int` has no
`.lower()` method, so the call raises `AttributeError` (modelled `none`). -/
def pyKeyLower : PyKey → Option String
  | PyKey.pystr s => some (pyLower s)
  | PyKey.pyint _ => none

/-! ## Fetcher -/

/-- `fetch_pokemon_data(client, name_or_id)`: GET `/pokemon/{name_or_id.lower()}`,
returning the payload on status 200 and `None` otherwise (a transport fault is
caught and also yields `None`); the database argument models the upstream. -/
def fetch_pokemon_data (core_db : String → Option PokemonData)
    (name_or_id : String) : Option PokemonData :=
  core_db (pyLower name_or_id)

/-- `fetch_pokemon_species(client, name_or_id)`: GET
`/pokemon-species/{name_or_id.lower()}`.  The whole body sits in a
`try/except Exception` that returns `None`, so the `AttributeError` raised by
`.lower()` on an `int` key is converted to `None` at this boundary. -/
def fetch_pokemon_species (species_db : String → Option SpeciesData)
    (name_or_id : PyKey) : Option SpeciesData :=
  match pyKeyLower name_or_id with
  | some key => species_db key
  | none => none

/-! ## Hydrator: `get_pokemon_details` -/

/-- The `PokemonDetail` pydantic response model.  `sprite_url` is declared
`str` (not `Optional[str]`) in the source, hence the Lean field is `String`
and constructing a record from a null sprite is impossible. -/
structure PokemonDetail where
  id : Nat
  name : String
  types : List String
  sprite_url : String
  height : Nat
  weight : Nat
  abilities : List String
  stats : List (String × Nat)
  is_legendary : Bool
  is_mythical : Bool
  description : Option String
deriving DecidableEq

/-- `[t["type"]["name"] for t in pokemon_data["types"]]` -/
def extract_types (pd : PokemonData) : List String :=
  pd.types.map (fun t => t.type_name)

/-- `[a["ability"]["name"].replace("-", " ") for a in pokemon_data["abilities"]]` -/
def extract_abilities (pd : PokemonData) : List String :=
  pd.abilities.map (fun a => replaceChar '-' ' ' a.ability_name)

/-- `{s["stat"]["name"]: s["base_stat"] for s in pokemon_data["stats"]}`,
kept as the insertion-ordered pair list; lookups use `dictGetD`, which
implements the last-write-wins overwrite of the dict comprehension. -/
def extract_stats (pd : PokemonData) : List (String × Nat) :=
  pd.stats.map (fun s => (s.stat_name, s.base_stat))

/-- `dict(pairs).get(k, dflt)` for a dict built from a pair list in which a
later pair with the same key overwrites an earlier one. -/
def dictGetD (d : List (String × Nat)) (k : String) (dflt : Nat) : Nat :=
  match (d.filter (fun kv => kv.1 == k)).getLast? with
  | some kv => kv.2
  | none => dflt

/-- The description extraction of `get_pokemon_details`: if the species
payload is present and has the `flavor_text_entries` key, take the first
entry whose language tag is `"en"` and replace newline and form-feed
characters by spaces; otherwise `None`. -/
def extract_description (species_data : Option SpeciesData) : Option String :=
  match species_data with
  | none => none
  | some sd =>
    match sd.flavor_text_entries with
    | none => none
    | some entries =>
      match entries.filter (fun e => e.language_name == "en") with
      | [] => none
      | e :: _ => some (replaceChar '\x0c' ' ' (replaceChar '\n' ' ' e.flavor_text))

/-- `species_data.get("is_legendary", False) if species_data else False` -/
def legendaryFlag : Option SpeciesData → Bool
  | some sd => sd.is_legendary.getD false
  | none => false

/-- `species_data.get("is_mythical", False) if species_data else False` -/
def mythicalFlag : Option SpeciesData → Bool
  | some sd => sd.is_mythical.getD false
  | none => false

/-- The message of the pydantic `ValidationError` raised when
`PokemonDetail` is constructed with `sprite_url=None` (the field is `str`,
so pydantic rejects `None`); the exact wording is not load-bearing. -/
def spriteValidationMsg : String :=
  "ValidationError: sprite_url accepts str, not NoneType"

/-- `get_pokemon_details(name_or_id)`: fetch the core payload (return `None`
when absent), fetch the species payload keyed by the integer
`pokemon_data["id"]`, extract the fields, and construct the `PokemonDetail`
pydantic model.  `Except.error` models a raised fault propagating out of the
function (the only such fault is the pydantic validation of a null sprite). -/
def get_pokemon_details (core_db : String → Option PokemonData)
    (species_db : String → Option SpeciesData) (name_or_id : String) :
    Except String (Option PokemonDetail) :=
  match fetch_pokemon_data core_db name_or_id with
  | none => Except.ok none
  | some pokemon_data =>
    let species_data := fetch_pokemon_species species_db (PyKey.pyint pokemon_data.id)
    match pokemon_data.sprites_front_default with
    | none => Except.error spriteValidationMsg
    | some sprite =>
      Except.ok (some {
        id := pokemon_data.id
        name := pokemon_data.name
        types := extract_types pokemon_data
        sprite_url := sprite
        height := pokemon_data.height
        weight := pokemon_data.weight
        abilities := extract_abilities pokemon_data
        stats := extract_stats pokemon_data
        is_legendary := legendaryFlag species_data
        is_mythical := mythicalFlag species_data
        description := extract_description species_data })

/-! ## Concrete demonstration inputs -/

/-- A concrete core payload for pikachu (values shaped like the upstream). -/
def pikachuCore : PokemonData :=
  { id := 25
    name := "pikachu"
    types := [⟨"electric"⟩]
    abilities := [⟨"static"⟩, ⟨"lightning-rod"⟩]
    stats := [⟨"hp", 35⟩, ⟨"speed", 90⟩]
    sprites_front_default := some "sprites/25.png"
    height := 4
    weight := 60 }

/-- A core database that resolves both the name `"pikachu"` and the numeric
alias `"25"` to the pikachu payload. -/
def demo_core_db : String → Option PokemonData :=
  fun k => if k == "pikachu" || k == "25" then some pikachuCore else none

/-- A species database with no data at all. -/
def demo_species_db : String → Option SpeciesData :=
  fun _ => none

/-- The record `get_pokemon_details` produces for pikachu. -/
def pikachuDetail : PokemonDetail :=
  { id := 25
    name := "pikachu"
    types := ["electric"]
    sprite_url := "sprites/25.png"
    height := 4
    weight := 60
    abilities := ["static", "lightning rod"]
    stats := [("hp", 35), ("speed", 90)]
    is_legendary := false
    is_mythical := false
    description := none }

/-- A species payload for pikachu holding an English flavor-text entry. -/
def pikachuSpecies : SpeciesData :=
  { is_legendary := some false
    is_mythical := some false
    flavor_text_entries := some [⟨"en", "Electric\nmouse."⟩] }

/-- A species database populated at the key `"25"`, the string form of the
identifier resolved from the pikachu core payload. -/
def demo_species_db_en : String → Option SpeciesData :=
  fun k => if k == "25" then some pikachuSpecies else none

/-- A core payload whose sprite reference is JSON null. -/
def noSpriteCore : PokemonData :=
  { id := 132
    name := "ditto"
    types := [⟨"normal"⟩]
    abilities := [⟨"limber"⟩]
    stats := [⟨"hp", 48⟩]
    sprites_front_default := none
    height := 3
    weight := 40 }

/-- A core database resolving only `"ditto"`, to the null-sprite payload. -/
def noSpriteDb : String → Option PokemonData :=
  fun k => if k == "ditto" then some noSpriteCore else none

/-! ## Hydrator theorems (claims C10, C1, C5) -/

/-- C10: inside `get_pokemon_details` the species lookup is invoked with the
integer identifier taken from the core payload; `fetch_pokemon_species`
lower-cases its key, which raises on an integer and is converted to `None`
at the fetcher boundary, so every record the hydrator returns has
`is_legendary = false`, `is_mythical = false` and `description = None`,
whatever the upstream species database holds. -/
theorem hydrated_record_never_has_species_fields
    (core_db : String → Option PokemonData) (species_db : String → Option SpeciesData)
    (n : String) (r : PokemonDetail)
    (h : get_pokemon_details core_db species_db n = Except.ok (some r)) :
    r.is_legendary = false ∧ r.is_mythical = false ∧ r.description = none
      ∧ (∀ (sdb : String → Option SpeciesData) (i : Nat),
            fetch_pokemon_species sdb (PyKey.pyint i) = none) := by
  refine ⟨?_, ?_, ?_, fun _ _ => rfl⟩ <;>
  · unfold get_pokemon_details at h
    cases hfd : fetch_pokemon_data core_db n with
    | none => rw [hfd] at h; exact absurd h (by simp)
    | some pd =>
      rw [hfd] at h
      cases hsp : pd.sprites_front_default with
      | none => simp only [hsp] at h; exact absurd h (by simp)
      | some s =>
        simp only [hsp] at h
        have hr := (Except.ok.injEq _ _).mp h
        have hr2 := (Option.some.injEq _ _).mp hr
        subst hr2
        rfl

/-- Witness for C10 at a concrete input: even with a species database that
holds an English flavor text at the resolved identifier key `"25"`, the
hydrated pikachu record carries only the defaults. -/
theorem hydrated_record_never_has_species_fields_witness :
    pikachuDetail.is_legendary = false ∧ pikachuDetail.is_mythical = false
      ∧ pikachuDetail.description = none
      ∧ (∀ (sdb : String → Option SpeciesData) (i : Nat),
            fetch_pokemon_species sdb (PyKey.pyint i) = none) :=
  hydrated_record_never_has_species_fields demo_core_db demo_species_db_en
    "pikachu" pikachuDetail (by decide)

/-- C1 (code bug evidence): with the upstream species table populated at the
key `"25"` — the string form of the identifier resolved from the core
payload — and holding an English flavor-text entry, hydrating `"pikachu"`
still yields `description = None`: the species fetch is keyed by the integer
id, whose lower-casing raises, so the payload is never seen. -/
theorem description_dead_despite_english_entry :
    demo_species_db_en "25" = some pikachuSpecies
      ∧ (pikachuSpecies.flavor_text_entries.getD []).any
          (fun e => e.language_name == "en") = true
      ∧ get_pokemon_details demo_core_db demo_species_db_en "pikachu"
          = Except.ok (some pikachuDetail)
      ∧ pikachuDetail.description = none := by
  refine ⟨by decide, by decide, by decide, by decide⟩

/-- C5 counterexample: the claim says hydration never propagates a raised
fault and yields a record with absent sprite when upstream omits it; but on
a core payload whose sprite reference is null, `PokemonDetail` construction
raises a pydantic validation fault that escapes `get_pokemon_details`. -/
theorem hydrate_raises_on_null_sprite :
    get_pokemon_details noSpriteDb demo_species_db "ditto"
        = Except.error spriteValidationMsg
      ∧ (get_pokemon_details noSpriteDb demo_species_db "ditto").isOk = false := by
  refine ⟨by decide, by decide⟩

/-- C5 amended: hydration returns `Absent` when the core fetch fails, and a
record (carrying the upstream sprite string) when the core fetch succeeds
with a non-null sprite; but when the core payload's sprite reference is
null, it propagates a validation fault instead of returning. -/
theorem hydrate_outcomes (core_db : String → Option PokemonData)
    (species_db : String → Option SpeciesData) (n : String) :
    (fetch_pokemon_data core_db n = none →
        get_pokemon_details core_db species_db n = Except.ok none)
      ∧ (∀ pd s, fetch_pokemon_data core_db n = some pd →
            pd.sprites_front_default = some s →
            ∃ r, get_pokemon_details core_db species_db n = Except.ok (some r)
              ∧ r.sprite_url = s)
      ∧ (∀ pd, fetch_pokemon_data core_db n = some pd →
            pd.sprites_front_default = none →
            get_pokemon_details core_db species_db n = Except.error spriteValidationMsg) := by
  refine ⟨?_, ?_, ?_⟩
  · intro h; unfold get_pokemon_details; rw [h]
  · intro pd s h hs
    unfold get_pokemon_details; rw [h]; simp only [hs]
    exact ⟨_, rfl, rfl⟩
  · intro pd h hs
    unfold get_pokemon_details; rw [h]; simp only [hs]

/-- Witness for C5 amended: the three branches at concrete inputs — a failed
core fetch returns `Absent`, a pikachu hydration returns a record carrying
the upstream sprite string, and the null-sprite payload raises. -/
theorem hydrate_outcomes_witness :
    get_pokemon_details demo_core_db demo_species_db "missingno" = Except.ok none
      ∧ (∃ r, get_pokemon_details demo_core_db demo_species_db "pikachu"
            = Except.ok (some r) ∧ r.sprite_url = "sprites/25.png")
      ∧ get_pokemon_details noSpriteDb demo_species_db "Ditto"
          = Except.error spriteValidationMsg :=
  ⟨(hydrate_outcomes demo_core_db demo_species_db "missingno").1 (by decide),
   (hydrate_outcomes demo_core_db demo_species_db "pikachu").2.1
      pikachuCore "sprites/25.png" (by decide) (by decide),
   (hydrate_outcomes noSpriteDb demo_species_db "Ditto").2.2
      noSpriteCore (by decide) (by decide)⟩

/-! ## Python `max`/`min` with a key function

CPython `max(iterable, key)` scans left to right and replaces the running
best only on a strictly greater key, so on ties the first-encountered
element wins; `min` is symmetric. -/

/-- One step of Python `max(..., key=...)`: replace iff strictly greater. -/
def maxStep (key : α → Nat) (best a : α) : α :=
  if key best < key a then a else best

/-- One step of Python `min(..., key=...)`: replace iff strictly smaller. -/
def minStep (key : α → Nat) (best a : α) : α :=
  if key a < key best then a else best

/-- Python `max(l, key=...)` (`none` models the `ValueError` on an empty
sequence, which the source never triggers). -/
def pyMaxBy (key : α → Nat) : List α → Option α
  | [] => none
  | x :: xs => some (xs.foldl (maxStep key) x)

/-- Python `min(l, key=...)`. -/
def pyMinBy (key : α → Nat) : List α → Option α
  | [] => none
  | x :: xs => some (xs.foldl (minStep key) x)

/-- `a` attains the maximum key over `l`. -/
def isMaxIn (key : α → Nat) (l : List α) (a : α) : Bool :=
  decide (∀ b ∈ l, key b ≤ key a)

/-- `a` attains the minimum key over `l`. -/
def isMinIn (key : α → Nat) (l : List α) (a : α) : Bool :=
  decide (∀ b ∈ l, key a ≤ key b)

/-- Specification-side description of the tie-break policy: the first
element of `l`, in input order, attaining the maximum key. -/
def firstMax (key : α → Nat) (l : List α) : Option α :=
  l.find? (isMaxIn key l)

/-- The first element of `l`, in input order, attaining the minimum key. -/
def firstMin (key : α → Nat) (l : List α) : Option α :=
  l.find? (isMinIn key l)

theorem isMaxIn_eq_true {key : α → Nat} {l : List α} {a : α} :
    isMaxIn key l a = true ↔ ∀ b ∈ l, key b ≤ key a := by
  simp [isMaxIn]

theorem isMaxIn_eq_false {key : α → Nat} {l : List α} {a : α} :
    isMaxIn key l a = false ↔ ∃ b ∈ l, key a < key b := by
  rw [isMaxIn, decide_eq_false_iff_not]
  push_neg
  rfl

theorem isMinIn_eq_true {key : α → Nat} {l : List α} {a : α} :
    isMinIn key l a = true ↔ ∀ b ∈ l, key a ≤ key b := by
  simp [isMinIn]

theorem isMinIn_eq_false {key : α → Nat} {l : List α} {a : α} :
    isMinIn key l a = false ↔ ∃ b ∈ l, key b < key a := by
  rw [isMinIn, decide_eq_false_iff_not]
  push_neg
  rfl

theorem find?_congr_mem {p q : α → Bool} :
    ∀ (l : List α), (∀ a ∈ l, p a = q a) → l.find? p = l.find? q := by
  intro l
  induction l with
  | nil => intro _; rfl
  | cons a l ih =>
    intro h
    simp only [List.find?]
    rw [h a (List.mem_cons_self a l)]
    cases hq : q a with
    | true => rfl
    | false => exact ih (fun b hb => h b (List.mem_cons_of_mem a hb))

theorem find?_isMaxIn_cons (key : α → Nat) :
    ∀ (xs : List α) (x : α),
      (x :: xs).find? (isMaxIn key (x :: xs)) = some (xs.foldl (maxStep key) x) := by
  intro xs
  induction xs with
  | nil =>
    intro x
    have hx : isMaxIn key [x] x = true := by
      rw [isMaxIn_eq_true]; intro b hb; rw [List.mem_singleton] at hb; rw [hb]
    simp [List.find?, hx]
  | cons y ys ih =>
    intro x
    rw [List.foldl_cons]
    by_cases hxy : key x < key y
    · have hstep : maxStep key x y = y := by simp [maxStep, hxy]
      have hx : isMaxIn key (x :: y :: ys) x = false := by
        rw [isMaxIn_eq_false]; exact ⟨y, by simp, hxy⟩
      have hcongr : (y :: ys).find? (isMaxIn key (x :: y :: ys))
          = (y :: ys).find? (isMaxIn key (y :: ys)) := by
        apply find?_congr_mem
        intro a _
        cases hq : isMaxIn key (y :: ys) a with
        | true =>
          rw [isMaxIn_eq_true] at hq
          rw [isMaxIn_eq_true]
          intro b hb
          rcases List.mem_cons.mp hb with hb1 | hb2
          · rw [hb1]; exact le_trans (le_of_lt hxy) (hq y (by simp))
          · exact hq b hb2
        | false =>
          rw [isMaxIn_eq_false] at hq
          rw [isMaxIn_eq_false]
          obtain ⟨b, hb, hab⟩ := hq
          exact ⟨b, List.mem_cons_of_mem x hb, hab⟩
      rw [hstep]
      calc (x :: y :: ys).find? (isMaxIn key (x :: y :: ys))
          = (y :: ys).find? (isMaxIn key (x :: y :: ys)) := by
            simp only [List.find?, hx]
        _ = (y :: ys).find? (isMaxIn key (y :: ys)) := hcongr
        _ = some (ys.foldl (maxStep key) y) := ih y
    · have hyx : key y ≤ key x := Nat.le_of_not_lt hxy
      have hstep : maxStep key x y = x := by simp [maxStep, hxy]
      rw [hstep]
      cases hx : isMaxIn key (x :: y :: ys) x with
      | true =>
        have hx' : isMaxIn key (x :: ys) x = true := by
          rw [isMaxIn_eq_true] at hx
          rw [isMaxIn_eq_true]
          intro b hb
          rcases List.mem_cons.mp hb with hb1 | hb2
          · rw [hb1]
          · exact hx b (by simp [hb2])
        have h1 : (x :: ys).find? (isMaxIn key (x :: ys)) = some x := by
          simp only [List.find?, hx']
        have h2 : some x = some (ys.foldl (maxStep key) x) := by
          rw [← h1]; exact ih x
        calc (x :: y :: ys).find? (isMaxIn key (x :: y :: ys))
            = some x := by simp only [List.find?, hx]
          _ = some (ys.foldl (maxStep key) x) := h2
      | false =>
        have hy : isMaxIn key (x :: y :: ys) y = false := by
          cases hq : isMaxIn key (x :: y :: ys) y with
          | false => rfl
          | true =>
            exfalso
            rw [isMaxIn_eq_true] at hq
            have hxt : isMaxIn key (x :: y :: ys) x = true := by
              rw [isMaxIn_eq_true]
              intro b hb
              exact le_trans (hq b hb) hyx
            rw [hxt] at hx
            exact Bool.noConfusion hx
        have hx' : isMaxIn key (x :: ys) x = false := by
          cases hq : isMaxIn key (x :: ys) x with
          | false => rfl
          | true =>
            exfalso
            rw [isMaxIn_eq_true] at hq
            have hxt : isMaxIn key (x :: y :: ys) x = true := by
              rw [isMaxIn_eq_true]
              intro b hb
              rcases List.mem_cons.mp hb with hb1 | hb2
              · rw [hb1]
              · rcases List.mem_cons.mp hb2 with hb3 | hb4
                · rw [hb3]; exact hyx
                · exact hq b (by simp [hb4])
            rw [hxt] at hx
            exact Bool.noConfusion hx
        have hcongr : ys.find? (isMaxIn key (x :: y :: ys))
            = ys.find? (isMaxIn key (x :: ys)) := by
          apply find?_congr_mem
          intro a _
          cases hq : isMaxIn key (x :: ys) a with
          | true =>
            rw [isMaxIn_eq_true] at hq
            rw [isMaxIn_eq_true]
            intro b hb
            rcases List.mem_cons.mp hb with hb1 | hb2
            · rw [hb1]; exact hq x (by simp)
            · rcases List.mem_cons.mp hb2 with hb3 | hb4
              · rw [hb3]; exact le_trans hyx (hq x (by simp))
              · exact hq b (by simp [hb4])
          | false =>
            rw [isMaxIn_eq_false] at hq
            rw [isMaxIn_eq_false]
            obtain ⟨b, hb, hab⟩ := hq
            rcases List.mem_cons.mp hb with hb1 | hb2
            · exact ⟨b, by simp [hb1], hab⟩
            · exact ⟨b, by simp [hb2], hab⟩
        have h1 : ys.find? (isMaxIn key (x :: ys)) = some (ys.foldl (maxStep key) x) := by
          have := ih x
          simp only [List.find?, hx'] at this
          exact this
        calc (x :: y :: ys).find? (isMaxIn key (x :: y :: ys))
            = ys.find? (isMaxIn key (x :: y :: ys)) := by
              simp only [List.find?, hx, hy]
          _ = ys.find? (isMaxIn key (x :: ys)) := hcongr
          _ = some (ys.foldl (maxStep key) x) := h1

/-- Python `max(l, key)` returns the first element of `l` attaining the
maximum key: first-encountered-wins tie-break under input order. -/
theorem pyMaxBy_eq_firstMax (key : α → Nat) (l : List α) :
    pyMaxBy key l = firstMax key l := by
  cases l with
  | nil => rfl
  | cons x xs => exact (find?_isMaxIn_cons key xs x).symm

theorem find?_isMinIn_cons (key : α → Nat) :
    ∀ (xs : List α) (x : α),
      (x :: xs).find? (isMinIn key (x :: xs)) = some (xs.foldl (minStep key) x) := by
  intro xs
  induction xs with
  | nil =>
    intro x
    have hx : isMinIn key [x] x = true := by
      rw [isMinIn_eq_true]; intro b hb; rw [List.mem_singleton] at hb; rw [hb]
    simp [List.find?, hx]
  | cons y ys ih =>
    intro x
    rw [List.foldl_cons]
    by_cases hxy : key y < key x
    · have hstep : minStep key x y = y := by simp [minStep, hxy]
      have hx : isMinIn key (x :: y :: ys) x = false := by
        rw [isMinIn_eq_false]; exact ⟨y, by simp, hxy⟩
      have hcongr : (y :: ys).find? (isMinIn key (x :: y :: ys))
          = (y :: ys).find? (isMinIn key (y :: ys)) := by
        apply find?_congr_mem
        intro a _
        cases hq : isMinIn key (y :: ys) a with
        | true =>
          rw [isMinIn_eq_true] at hq
          rw [isMinIn_eq_true]
          intro b hb
          rcases List.mem_cons.mp hb with hb1 | hb2
          · rw [hb1]; exact le_trans (hq y (by simp)) (le_of_lt hxy)
          · exact hq b hb2
        | false =>
          rw [isMinIn_eq_false] at hq
          rw [isMinIn_eq_false]
          obtain ⟨b, hb, hab⟩ := hq
          exact ⟨b, List.mem_cons_of_mem x hb, hab⟩
      rw [hstep]
      calc (x :: y :: ys).find? (isMinIn key (x :: y :: ys))
          = (y :: ys).find? (isMinIn key (x :: y :: ys)) := by
            simp only [List.find?, hx]
        _ = (y :: ys).find? (isMinIn key (y :: ys)) := hcongr
        _ = some (ys.foldl (minStep key) y) := ih y
    · have hyx : key x ≤ key y := Nat.le_of_not_lt hxy
      have hstep : minStep key x y = x := by simp [minStep, hxy]
      rw [hstep]
      cases hx : isMinIn key (x :: y :: ys) x with
      | true =>
        have hx' : isMinIn key (x :: ys) x = true := by
          rw [isMinIn_eq_true] at hx
          rw [isMinIn_eq_true]
          intro b hb
          rcases List.mem_cons.mp hb with hb1 | hb2
          · rw [hb1]
          · exact hx b (by simp [hb2])
        have h1 : (x :: ys).find? (isMinIn key (x :: ys)) = some x := by
          simp only [List.find?, hx']
        have h2 : some x = some (ys.foldl (minStep key) x) := by
          rw [← h1]; exact ih x
        calc (x :: y :: ys).find? (isMinIn key (x :: y :: ys))
            = some x := by simp only [List.find?, hx]
          _ = some (ys.foldl (minStep key) x) := h2
      | false =>
        have hy : isMinIn key (x :: y :: ys) y = false := by
          cases hq : isMinIn key (x :: y :: ys) y with
          | false => rfl
          | true =>
            exfalso
            rw [isMinIn_eq_true] at hq
            have hxt : isMinIn key (x :: y :: ys) x = true := by
              rw [isMinIn_eq_true]
              intro b hb
              exact le_trans hyx (hq b hb)
            rw [hxt] at hx
            exact Bool.noConfusion hx
        have hx' : isMinIn key (x :: ys) x = false := by
          cases hq : isMinIn key (x :: ys) x with
          | false => rfl
          | true =>
            exfalso
            rw [isMinIn_eq_true] at hq
            have hxt : isMinIn key (x :: y :: ys) x = true := by
              rw [isMinIn_eq_true]
              intro b hb
              rcases List.mem_cons.mp hb with hb1 | hb2
              · rw [hb1]
              · rcases List.mem_cons.mp hb2 with hb3 | hb4
                · rw [hb3]; exact hyx
                · exact hq b (by simp [hb4])
            rw [hxt] at hx
            exact Bool.noConfusion hx
        have hcongr : ys.find? (isMinIn key (x :: y :: ys))
            = ys.find? (isMinIn key (x :: ys)) := by
          apply find?_congr_mem
          intro a _
          cases hq : isMinIn key (x :: ys) a with
          | true =>
            rw [isMinIn_eq_true] at hq
            rw [isMinIn_eq_true]
            intro b hb
            rcases List.mem_cons.mp hb with hb1 | hb2
            · rw [hb1]; exact hq x (by simp)
            · rcases List.mem_cons.mp hb2 with hb3 | hb4
              · rw [hb3]; exact le_trans (hq x (by simp)) hyx
              · exact hq b (by simp [hb4])
          | false =>
            rw [isMinIn_eq_false] at hq
            rw [isMinIn_eq_false]
            obtain ⟨b, hb, hab⟩ := hq
            rcases List.mem_cons.mp hb with hb1 | hb2
            · exact ⟨b, by simp [hb1], hab⟩
            · exact ⟨b, by simp [hb2], hab⟩
        have h1 : ys.find? (isMinIn key (x :: ys)) = some (ys.foldl (minStep key) x) := by
          have := ih x
          simp only [List.find?, hx'] at this
          exact this
        calc (x :: y :: ys).find? (isMinIn key (x :: y :: ys))
            = ys.find? (isMinIn key (x :: y :: ys)) := by
              simp only [List.find?, hx, hy]
          _ = ys.find? (isMinIn key (x :: ys)) := hcongr
          _ = some (ys.foldl (minStep key) x) := h1

/-- Python `min(l, key)` returns the first element of `l` attaining the
minimum key. -/
theorem pyMinBy_eq_firstMin (key : α → Nat) (l : List α) :
    pyMinBy key l = firstMin key l := by
  cases l with
  | nil => rfl
  | cons x xs => exact (find?_isMinIn_cons key xs x).symm

/-! ## Batch resolver (fan-out used by compare, trainer and region lookup)

`asyncio.gather(*tasks)` awaits every hydration and yields the results in
task-submission order (never completion order); if a task raised, the fault
propagates out of `gather`.  Which fault propagates first when several raise
is timing-dependent upstream; the model propagates the leftmost one, and no
claim depends on that choice. -/

/-- The raised-fault outcome of an operation. -/
inductive Err where
  | http : Nat → String → Err
  | fault : String → Err
deriving DecidableEq

/-- `await asyncio.gather(*[get_pokemon_details(n) for n in names])`. -/
def gatherDetails (core_db : String → Option PokemonData)
    (species_db : String → Option SpeciesData) :
    List String → Except String (List (Option PokemonDetail))
  | [] => Except.ok []
  | n :: rest =>
    match get_pokemon_details core_db species_db n with
    | Except.error e => Except.error e
    | Except.ok r =>
      match gatherDetails core_db species_db rest with
      | Except.error e => Except.error e
      | Except.ok rs => Except.ok (r :: rs)

/-- `for result in results: if result: pokemon_list.append(result)` —
the collection loop of `compare_pokemon`. -/
def collectResults (results : List (Option PokemonDetail)) : List PokemonDetail :=
  results.foldl (fun acc r => match r with | some p => acc ++ [p] | none => acc) []

/-- `[result for result in results if result]` — the collection
comprehension of `get_trainer_pokemon` and `get_region_pokemon`. -/
def filterFound (results : List (Option PokemonDetail)) : List PokemonDetail :=
  results.filterMap id

theorem collectResults_go (results : List (Option PokemonDetail)) :
    ∀ acc, results.foldl (fun acc r => match r with | some p => acc ++ [p] | none => acc) acc
      = acc ++ results.filterMap id := by
  induction results with
  | nil => intro acc; simp
  | cons r rest ih =>
    intro acc
    cases r with
    | none => simpa using ih acc
    | some p =>
      simp only [List.foldl_cons, List.filterMap_cons]
      rw [ih (acc ++ [p])]
      simp

theorem collectResults_eq_filterMap (results : List (Option PokemonDetail)) :
    collectResults results = results.filterMap id := by
  simpa using collectResults_go results []

theorem gatherDetails_ok (core_db : String → Option PokemonData)
    (species_db : String → Option SpeciesData) (f : String → Option PokemonDetail)
    (h : ∀ n, get_pokemon_details core_db species_db n = Except.ok (f n)) :
    ∀ (names : List String),
      gatherDetails core_db species_db names = Except.ok (names.map f) := by
  intro names
  induction names with
  | nil => rfl
  | cons n rest ih =>
    unfold gatherDetails
    rw [h n, ih]
    simp

/-- C3: the fan-out collects hydration results in input order and drops the
failures without reordering the survivors: whenever every hydration returns
(without fault) the optional record `f n`, the gathered list is the
input-order map and both collection styles produce exactly
`names.filterMap f` — the successful records in input order. -/
theorem resolveMany_preserves_input_order (core_db : String → Option PokemonData)
    (species_db : String → Option SpeciesData) (f : String → Option PokemonDetail)
    (names : List String)
    (h : ∀ n, get_pokemon_details core_db species_db n = Except.ok (f n)) :
    gatherDetails core_db species_db names = Except.ok (names.map f)
      ∧ collectResults (names.map f) = names.filterMap f
      ∧ filterFound (names.map f) = names.filterMap f := by
  refine ⟨gatherDetails_ok core_db species_db f h names, ?_, ?_⟩
  · rw [collectResults_eq_filterMap, List.filterMap_map]
    rfl
  · rw [filterFound, List.filterMap_map]
    rfl

/-! ## Comparator: `compare_pokemon` -/

/-- The `{"highest": (name, value), "lowest": (name, value)}` sub-dict. -/
structure ExtremePair where
  highest : String × Nat
  lowest : String × Nat
deriving DecidableEq

/-- The `comparison` dict of `compare_pokemon`.  Python iterates the
`all_types` set in an order the language leaves unspecified; the model
fixes first-appearance order for the `types` keys, and no claim depends on
that ordering. -/
structure Comparison where
  stats : List (String × ExtremePair)
  types : List (String × List String)
  height : ExtremePair
  weight : ExtremePair
deriving DecidableEq

/-- The `ComparisonResult` response model. -/
structure ComparisonResult where
  pokemon : List PokemonDetail
  comparison : Comparison
deriving DecidableEq

/-- The fixed statistic-name set iterated by `compare_pokemon`. -/
def STAT_NAMES : List String :=
  ["hp", "attack", "defense", "special-attack", "special-defense", "speed"]

/-- `[(p.name, p.stats.get(stat, 0)) for p in pokemon_list]` -/
def statPairs (stat : String) (l : List PokemonDetail) : List (String × Nat) :=
  l.map (fun p => (p.name, dictGetD p.stats stat 0))

/-- The per-statistic extreme entries; the `getD` defaults model the
`ValueError` Python `max`/`min` would raise on an empty list, which the
caller excludes before building the comparison. -/
def statExtremes (stat : String) (l : List PokemonDetail) : ExtremePair :=
  { highest := (pyMaxBy Prod.snd (statPairs stat l)).getD ("", 0)
    lowest := (pyMinBy Prod.snd (statPairs stat l)).getD ("", 0) }

/-- The `all_types` set accumulated over `pokemon_list`, in
first-appearance order. -/
def typeUnion (l : List PokemonDetail) : List String :=
  l.foldl (fun acc p =>
    p.types.foldl (fun acc2 t => if acc2.contains t then acc2 else acc2 ++ [t]) acc) []

/-- `comparison["types"]`: for each collected type, the names of the
records carrying it, in input order. -/
def typeMembers (l : List PokemonDetail) : List (String × List String) :=
  (typeUnion l).map (fun t =>
    (t, (l.filter (fun p => p.types.contains t)).map (fun p => p.name)))

/-- `[(p.name, p.height) for p in pokemon_list]` -/
def heightPairs (l : List PokemonDetail) : List (String × Nat) :=
  l.map (fun p => (p.name, p.height))

/-- `[(p.name, p.weight) for p in pokemon_list]` -/
def weightPairs (l : List PokemonDetail) : List (String × Nat) :=
  l.map (fun p => (p.name, p.weight))

/-- The `comparison` dict built by `compare_pokemon` over the non-empty
resolved list. -/
def buildComparison (l : List PokemonDetail) : Comparison :=
  { stats := STAT_NAMES.map (fun stat => (stat, statExtremes stat l))
    types := typeMembers l
    height := { highest := (pyMaxBy Prod.snd (heightPairs l)).getD ("", 0)
                lowest := (pyMinBy Prod.snd (heightPairs l)).getD ("", 0) }
    weight := { highest := (pyMaxBy Prod.snd (weightPairs l)).getD ("", 0)
                lowest := (pyMinBy Prod.snd (weightPairs l)).getD ("", 0) } }

/-- `GET /pokemon/compare`: validate the batch size, hydrate all names
concurrently, keep the resolved ones in input order, fail with 404 only
when none resolved, and otherwise build the comparison. -/
def compare_pokemon (core_db : String → Option PokemonData)
    (species_db : String → Option SpeciesData) (pokemon_names : List String) :
    Except Err ComparisonResult :=
  if pokemon_names.length < 2 then
    Except.error (Err.http 400 "Please provide at least 2 Pokemon to compare")
  else if 6 < pokemon_names.length then
    Except.error (Err.http 400 "You can compare a maximum of 6 Pokemon")
  else
    match gatherDetails core_db species_db pokemon_names with
    | Except.error e => Except.error (Err.fault e)
    | Except.ok results =>
      let pokemon_list := collectResults results
      if pokemon_list.isEmpty then
        Except.error (Err.http 404 "None of the requested Pokemon were found")
      else
        Except.ok { pokemon := pokemon_list, comparison := buildComparison pokemon_list }

/-! ## Demo records for the comparator and batch resolver -/

/-- A second concrete core payload (charizard), speed 100 against the
pikachu speed 90 used by the specification's worked example. -/
def charizardCore : PokemonData :=
  { id := 6
    name := "charizard"
    types := [⟨"fire"⟩, ⟨"flying"⟩]
    abilities := [⟨"blaze"⟩]
    stats := [⟨"hp", 78⟩, ⟨"speed", 100⟩]
    sprites_front_default := some "sprites/6.png"
    height := 17
    weight := 905 }

/-- The record `get_pokemon_details` produces for charizard. -/
def charizardDetail : PokemonDetail :=
  { id := 6
    name := "charizard"
    types := ["fire", "flying"]
    sprite_url := "sprites/6.png"
    height := 17
    weight := 905
    abilities := ["blaze"]
    stats := [("hp", 78), ("speed", 100)]
    is_legendary := false
    is_mythical := false
    description := none }

/-- A core database resolving exactly `"pikachu"` and `"charizard"`. -/
def rosterDb : String → Option PokemonData :=
  fun k =>
    if k == "pikachu" then some pikachuCore
    else if k == "charizard" then some charizardCore
    else none

/-- The pure hydration function realised by `rosterDb`. -/
def rosterHydrate : String → Option PokemonDetail :=
  fun n =>
    if pyLower n == "pikachu" then some pikachuDetail
    else if pyLower n == "charizard" then some charizardDetail
    else none

theorem rosterHydrate_ok (n : String) :
    get_pokemon_details rosterDb demo_species_db n = Except.ok (rosterHydrate n) := by
  unfold get_pokemon_details fetch_pokemon_data rosterDb rosterHydrate
  by_cases h1 : pyLower n = "pikachu"
  · rw [h1]; decide
  · by_cases h2 : pyLower n = "charizard"
    · rw [h2]; decide
    · have hb1 : (pyLower n == "pikachu") = false := beq_eq_false_iff_ne.mpr h1
      have hb2 : (pyLower n == "charizard") = false := beq_eq_false_iff_ne.mpr h2
      rw [hb1, hb2]
      rfl

/-! ## Claim theorems for the batch resolver and comparator -/

/-- Witness for C3 at a concrete input: for `[pikachu, missingno, charizard]`
where the middle identifier fails, both collection styles return
`[pikachu-record, charizard-record]` — submission order, failure dropped. -/
theorem resolveMany_preserves_input_order_witness :
    (gatherDetails rosterDb demo_species_db ["pikachu", "missingno", "charizard"]
        = Except.ok (["pikachu", "missingno", "charizard"].map rosterHydrate)
      ∧ collectResults (["pikachu", "missingno", "charizard"].map rosterHydrate)
          = ["pikachu", "missingno", "charizard"].filterMap rosterHydrate
      ∧ filterFound (["pikachu", "missingno", "charizard"].map rosterHydrate)
          = ["pikachu", "missingno", "charizard"].filterMap rosterHydrate)
    ∧ ["pikachu", "missingno", "charizard"].filterMap rosterHydrate
        = [pikachuDetail, charizardDetail] :=
  ⟨resolveMany_preserves_input_order rosterDb demo_species_db rosterHydrate
      ["pikachu", "missingno", "charizard"] rosterHydrate_ok,
   by decide⟩

/-- C2 counterexample: a request of valid size in which exactly one
identifier resolves; the claim says compare must not return a
`ComparisonResult`, but the source only rejects when the resolved list is
empty, so it returns one. -/
theorem compare_returns_with_single_resolution :
    get_pokemon_details demo_core_db demo_species_db "pikachu"
        = Except.ok (some pikachuDetail)
      ∧ get_pokemon_details demo_core_db demo_species_db "missingno" = Except.ok none
      ∧ (compare_pokemon demo_core_db demo_species_db ["pikachu", "missingno"]).isOk
          = true := by
  refine ⟨by decide, by decide, by decide⟩

/-- C2 amended: for a fault-free request of valid batch size, compare fails
with the 404 not-found error exactly when zero of the requested identifiers
resolve; when at least one resolves it returns a `ComparisonResult` whose
record list is the input-order survivors. -/
theorem compare_404_only_when_none_resolve (core_db : String → Option PokemonData)
    (species_db : String → Option SpeciesData) (f : String → Option PokemonDetail)
    (names : List String) (h2 : 2 ≤ names.length) (h6 : names.length ≤ 6)
    (hok : ∀ n, get_pokemon_details core_db species_db n = Except.ok (f n)) :
    (names.filterMap f = [] →
        compare_pokemon core_db species_db names
          = Except.error (Err.http 404 "None of the requested Pokemon were found"))
      ∧ (names.filterMap f ≠ [] →
          ∃ res, compare_pokemon core_db species_db names = Except.ok res
            ∧ res.pokemon = names.filterMap f) := by
  have hg := gatherDetails_ok core_db species_db f hok names
  have hc : collectResults (names.map f) = names.filterMap f := by
    rw [collectResults_eq_filterMap, List.filterMap_map]
    rfl
  have hcmp : compare_pokemon core_db species_db names =
      (if (names.filterMap f).isEmpty then
        Except.error (Err.http 404 "None of the requested Pokemon were found")
      else
        Except.ok { pokemon := names.filterMap f
                    comparison := buildComparison (names.filterMap f) }) := by
    unfold compare_pokemon
    rw [if_neg (by omega), if_neg (by omega), hg]
    dsimp only
    rw [hc]
  constructor
  · intro hemp
    rw [hcmp, hemp]
    rfl
  · intro hne
    have hne2 : ((names.filterMap f).isEmpty = true) = False := by
      cases hl : names.filterMap f with
      | nil => exact absurd hl hne
      | cons a t => simp
    rw [hcmp, if_neg (by rw [hne2]; exact id)]
    exact ⟨_, rfl, rfl⟩

/-- Witness for C2 amended: `["pikachu", "missingno"]` has one resolving
identifier, so compare returns a result whose record list is the single
pikachu record. -/
theorem compare_404_only_when_none_resolve_witness :
    ∃ res, compare_pokemon rosterDb demo_species_db ["pikachu", "missingno"]
        = Except.ok res
      ∧ res.pokemon = ["pikachu", "missingno"].filterMap rosterHydrate :=
  (compare_404_only_when_none_resolve rosterDb demo_species_db rosterHydrate
      ["pikachu", "missingno"] (by decide) (by decide) rosterHydrate_ok).2 (by decide)

theorem find?_statmap (g : String → ExtremePair) (stat : String)
    (h : stat ∈ STAT_NAMES) :
    (STAT_NAMES.map (fun s => (s, g s))).find? (fun kv => kv.1 == stat)
      = some (stat, g stat) := by
  fin_cases h <;> rfl

/-- C4: for a non-empty record list and a statistic of the fixed set, the
comparison's entry for that statistic holds the (name, value) pair of the
first record in input order attaining the maximum (resp. minimum), with a
missing statistic read as 0 by `statPairs`; height and weight extremes use
the same first-in-input-order tie-break. -/
theorem comparison_extremes_first_in_input_order (l : List PokemonDetail)
    (_hne : l ≠ []) (stat : String) (hs : stat ∈ STAT_NAMES) :
    ((buildComparison l).stats.find? (fun kv => kv.1 == stat))
        = some (stat, statExtremes stat l)
      ∧ statExtremes stat l
          = { highest := (firstMax Prod.snd (statPairs stat l)).getD ("", 0)
              lowest := (firstMin Prod.snd (statPairs stat l)).getD ("", 0) }
      ∧ (buildComparison l).height
          = { highest := (firstMax Prod.snd (heightPairs l)).getD ("", 0)
              lowest := (firstMin Prod.snd (heightPairs l)).getD ("", 0) }
      ∧ (buildComparison l).weight
          = { highest := (firstMax Prod.snd (weightPairs l)).getD ("", 0)
              lowest := (firstMin Prod.snd (weightPairs l)).getD ("", 0) } := by
  refine ⟨find?_statmap (fun s => statExtremes s l) stat hs, ?_, ?_, ?_⟩ <;>
    simp only [statExtremes, buildComparison, pyMaxBy_eq_firstMax, pyMinBy_eq_firstMin]

/-- Witness for C4, the specification's worked example: pikachu speed 90,
charizard speed 100 → speed highest `("charizard", 100)`, lowest
`("pikachu", 90)`. -/
theorem comparison_extremes_witness :
    ((buildComparison [pikachuDetail, charizardDetail]).stats.find?
        (fun kv => kv.1 == "speed"))
      = some ("speed", { highest := ("charizard", 100), lowest := ("pikachu", 90) }) := by
  have h := comparison_extremes_first_in_input_order [pikachuDetail, charizardDetail]
    (by decide) "speed" (by decide)
  rw [h.1, h.2.1]
  decide

/-! ## Static tables and the group-lookup endpoints -/

/-- The `FAMOUS_TRAINERS` table. -/
def FAMOUS_TRAINERS : List (String × List String) :=
  [("ash", ["pikachu", "charizard", "squirtle", "bulbasaur", "greninja",
            "infernape", "sceptile", "lycanroc", "dragonite", "gengar"]),
   ("misty", ["starmie", "staryu", "goldeen", "psyduck", "togepi", "gyarados"]),
   ("brock", ["onix", "geodude", "vulpix", "crobat", "sudowoodo", "steelix"]),
   ("gary", ["blastoise", "umbreon", "electivire", "arcanine", "nidoking", "scizor"]),
   ("lance", ["dragonite", "gyarados", "aerodactyl", "charizard", "tyranitar"]),
   ("cynthia", ["garchomp", "spiritomb", "milotic", "roserade", "togekiss", "lucario"])]

/-- `GET /pokemon/trainer/{trainer_name}`. -/
def get_trainer_pokemon (core_db : String → Option PokemonData)
    (species_db : String → Option SpeciesData) (trainer_name : String) :
    Except Err (List PokemonDetail) :=
  match (FAMOUS_TRAINERS.find? (fun kv => kv.1 == pyLower trainer_name)).map Prod.snd with
  | none =>
    Except.error (Err.http 404 ("Trainer " ++ pyLower trainer_name ++ " not found"))
  | some pokemon_names =>
    match gatherDetails core_db species_db pokemon_names with
    | Except.error e => Except.error (Err.fault e)
    | Except.ok results => Except.ok (filterFound results)

/-- `entry["pokemon_species"]["name"]` wrapper of a pokedex entry. -/
structure PokedexEntry where
  pokemon_species_name : String
deriving DecidableEq

/-- The payload of the `/pokedex/` endpoint, restricted to the field read. -/
structure PokedexData where
  pokemon_entries : List PokedexEntry
deriving DecidableEq

/-- One row of the `POKEMON_REGIONS` table. -/
structure RegionInfo where
  generation : String
  pokedex : String
deriving DecidableEq

/-- The `POKEMON_REGIONS` table. -/
def POKEMON_REGIONS : List (String × RegionInfo) :=
  [("kanto", ⟨"generation-i", "kanto"⟩),
   ("johto", ⟨"generation-ii", "original-johto"⟩),
   ("hoenn", ⟨"generation-iii", "hoenn"⟩),
   ("sinnoh", ⟨"generation-iv", "original-sinnoh"⟩),
   ("unova", ⟨"generation-v", "original-unova"⟩),
   ("kalos", ⟨"generation-vi", "kalos-central"⟩),
   ("alola", ⟨"generation-vii", "original-alola"⟩),
   ("galar", ⟨"generation-viii", "galar"⟩)]

/-- `POKEMON_REGIONS[region_name]` after the `in` test. -/
def regionLookup (region_name : String) : Option RegionInfo :=
  (POKEMON_REGIONS.find? (fun kv => kv.1 == region_name)).map Prod.snd

/-- `GET /pokemon/region/{region_name}`: the pokedex GET has no
`try/except` and no 200-check conversion to `None` — a non-success status
raises `HTTPException(500)`.  `limit`/`offset` are the non-negative slice
parameters (defaults 20 and 0); `[offset : offset+limit]` is
drop-then-take. -/
def get_region_pokemon (pokedex_db : String → Option PokedexData)
    (core_db : String → Option PokemonData) (species_db : String → Option SpeciesData)
    (region_name : String) (limit : Nat) (offset : Nat) :
    Except Err (List PokemonDetail) :=
  match regionLookup (pyLower region_name) with
  | none =>
    Except.error (Err.http 404 ("Region " ++ pyLower region_name ++ " not found"))
  | some region_info =>
    match pokedex_db region_info.pokedex with
    | none => Except.error (Err.http 500 "Failed to fetch region data")
    | some pokedex_data =>
      match gatherDetails core_db species_db
          (((pokedex_data.pokemon_entries.drop offset).take limit).map
            (fun e => e.pokemon_species_name)) with
      | Except.error e => Except.error (Err.fault e)
      | Except.ok results => Except.ok (filterFound results)

/-- C9 counterexample: for the known region `"Kanto"`, a non-success status
on the pokedex fetch yields the server-side error 500 — not the uniform
not-found/Absent outcome the claim asserts. -/
theorem region_500_on_pokedex_failure :
    get_region_pokemon (fun _ => none) demo_core_db demo_species_db "Kanto" 20 0
      = Except.error (Err.http 500 "Failed to fetch region data") := by
  decide

/-- C9 amended: a non-success status from the pokedex endpoint is mapped to
a server-side 500 error, unlike the core and species endpoints whose
non-success statuses are folded into Absent. -/
theorem region_pokedex_nonsuccess_is_500 (pokedex_db : String → Option PokedexData)
    (core_db : String → Option PokemonData) (species_db : String → Option SpeciesData)
    (region_name : String) (limit offset : Nat) (ri : RegionInfo)
    (hr : regionLookup (pyLower region_name) = some ri)
    (hp : pokedex_db ri.pokedex = none) :
    get_region_pokemon pokedex_db core_db species_db region_name limit offset
      = Except.error (Err.http 500 "Failed to fetch region data") := by
  unfold get_region_pokemon
  rw [hr]
  dsimp only
  rw [hp]

/-- Witness for C9 amended at the concrete region `"kanto"`. -/
theorem region_pokedex_nonsuccess_is_500_witness :
    get_region_pokemon (fun _ => none) rosterDb demo_species_db "kanto" 5 0
      = Except.error (Err.http 500 "Failed to fetch region data") :=
  region_pokedex_nonsuccess_is_500 (fun _ => none) rosterDb demo_species_db
    "kanto" 5 0 ⟨"generation-i", "kanto"⟩ (by decide) rfl

/-! ## Team store

`POKEMON_TEAMS` is a module-level dict from user id to the list of stored
`PokemonDetail` records.  The store is modelled as a function (the source
never iterates the dict, so key order is irrelevant). -/

/-- The `POKEMON_TEAMS` mapping. -/
abbrev Store := String → Option (List PokemonDetail)

/-- The store at process start: an empty dict. -/
def emptyStore : Store := fun _ => none

/-- `POKEMON_TEAMS[u] = team` (dict assignment). -/
def storeSet (s : Store) (u : String) (team : List PokemonDetail) : Store :=
  fun v => if v == u then some team else s v

/-- `if user_id not in POKEMON_TEAMS: POKEMON_TEAMS[user_id] = []` — the
initialisation at the top of `add_to_team`, which mutates the store even
when the add later fails. -/
def initTeam (s : Store) (user_id : String) : Store :=
  match s user_id with
  | none => storeSet s user_id []
  | some _ => s

/-- The detail of the full-team 400 error. -/
def fullTeamMsg : String :=
  "Team is already full (maximum 6 Pokemon). Remove a Pokemon before adding a new one."

/-- The `TeamResponse` response model. -/
structure TeamResponse where
  user_id : String
  team : List PokemonDetail
  team_size : Nat
deriving DecidableEq

/-- `GET /team/{user_id}`: empty response for an unknown user or an
empty stored team (`not POKEMON_TEAMS[user_id]`). -/
def get_team (s : Store) (user_id : String) : TeamResponse :=
  match s user_id with
  | none => { user_id := user_id, team := [], team_size := 0 }
  | some team =>
    if team.isEmpty then { user_id := user_id, team := [], team_size := 0 }
    else { user_id := user_id, team := team, team_size := team.length }

/-- `POST /team/{user_id}/add`: initialise the team if missing, reject a
full team, reject when the lower-cased requested name is among the stored
member names, hydrate, reject an unresolvable name, else append.  The pair
returns the outcome and the store after the call. -/
def add_to_team (core_db : String → Option PokemonData)
    (species_db : String → Option SpeciesData) (s : Store)
    (user_id : String) (pokemon_name : String) :
    Except Err TeamResponse × Store :=
  let s1 := initTeam s user_id
  let team := (s1 user_id).getD []
  if 6 ≤ team.length then
    (Except.error (Err.http 400 fullTeamMsg), s1)
  else if (team.map (fun p => p.name)).contains (pyLower pokemon_name) then
    (Except.error (Err.http 400
        ("Pokemon " ++ pokemon_name ++ " is already in your team")), s1)
  else
    match get_pokemon_details core_db species_db pokemon_name with
    | Except.error e => (Except.error (Err.fault e), s1)
    | Except.ok none =>
      (Except.error (Err.http 404 ("Pokemon " ++ pokemon_name ++ " not found")), s1)
    | Except.ok (some pokemon) =>
      (Except.ok { user_id := user_id
                   team := team ++ [pokemon]
                   team_size := (team ++ [pokemon]).length },
       storeSet s1 user_id (team ++ [pokemon]))

/-- The removal loop of `remove_from_team`: pop the first member whose
lower-cased stored name equals the (already lower-cased) target, or signal
that none matches. -/
def removeFirstAux : List PokemonDetail → String → Option (List PokemonDetail)
  | [], _ => none
  | p :: rest, target =>
    if pyLower p.name == target then some rest
    else (removeFirstAux rest target).map (fun l => p :: l)

/-- `DELETE /team/{user_id}/remove/{pokemon_name}`. -/
def remove_from_team (s : Store) (user_id : String) (pokemon_name : String) :
    Except Err TeamResponse × Store :=
  match s user_id with
  | none =>
    (Except.error (Err.http 404 ("User " ++ user_id ++ " has no team yet")), s)
  | some team =>
    if team.isEmpty then
      (Except.error (Err.http 404 ("User " ++ user_id ++ " has no team yet")), s)
    else
      match removeFirstAux team (pyLower pokemon_name) with
      | some newTeam =>
        (Except.ok { user_id := user_id, team := newTeam, team_size := newTeam.length },
         storeSet s user_id newTeam)
      | none =>
        (Except.error (Err.http 404
            ("Pokemon " ++ pyLower pokemon_name ++ " not found in your team")), s)

/-- Store states reachable by any sequence of team calls from the empty
module-level dict; the get endpoint does not mutate the store, and each
call may observe arbitrary upstream databases. -/
inductive Reachable : Store → Prop where
  | empty : Reachable emptyStore
  | addStep (core_db : String → Option PokemonData)
      (species_db : String → Option SpeciesData) (s : Store) (u n : String) :
      Reachable s → Reachable (add_to_team core_db species_db s u n).2
  | removeStep (s : Store) (u n : String) :
      Reachable s → Reachable (remove_from_team s u n).2

theorem storeSet_self (s : Store) (u : String) (t : List PokemonDetail) :
    storeSet s u t u = some t := by
  simp [storeSet]

theorem storeSet_other (s : Store) (u v : String) (t : List PokemonDetail)
    (h : v ≠ u) : storeSet s u t v = s v := by
  simp [storeSet, h]

theorem initTeam_getD (s : Store) (u v : String) :
    ((initTeam s u) v).getD [] = (s v).getD [] := by
  unfold initTeam
  cases hs : s u with
  | some t => rfl
  | none =>
    dsimp only
    by_cases hv : v = u
    · subst hv
      rw [storeSet_self, hs]
      rfl
    · rw [storeSet_other s u v [] hv]

theorem removeFirstAux_length :
    ∀ (team : List PokemonDetail) (target : String) (nt : List PokemonDetail),
      removeFirstAux team target = some nt → nt.length + 1 = team.length := by
  intro team
  induction team with
  | nil => intro target nt h; exact absurd h (by simp [removeFirstAux])
  | cons p rest ih =>
    intro target nt h
    unfold removeFirstAux at h
    by_cases hp : (pyLower p.name == target) = true
    · rw [if_pos hp] at h
      have : rest = nt := by simpa using h
      subst this
      simp
    · rw [if_neg hp] at h
      cases hrm : removeFirstAux rest target with
      | none => rw [hrm] at h; simp at h
      | some nt2 =>
        rw [hrm] at h
        have h2 : p :: nt2 = nt := by simpa using h
        have h3 := ih target nt2 hrm
        rw [← h2]
        simp
        omega

theorem add_failure_membership (core_db : String → Option PokemonData)
    (species_db : String → Option SpeciesData) (s : Store) (u n : String)
    (h : (add_to_team core_db species_db s u n).1.isOk = false) (v : String) :
    ((add_to_team core_db species_db s u n).2 v).getD [] = (s v).getD [] := by
  have hinit := initTeam_getD s u v
  by_cases h6 : 6 ≤ (((initTeam s u) u).getD []).length
  · simp only [add_to_team, if_pos h6]
    exact hinit
  · by_cases hdup : ((((initTeam s u) u).getD []).map (fun p => p.name)).contains
        (pyLower n) = true
    · simp only [add_to_team, if_neg h6, if_pos hdup]
      exact hinit
    · cases hgd : get_pokemon_details core_db species_db n with
      | error e =>
        simp only [add_to_team, if_neg h6, if_neg hdup, hgd]
        exact hinit
      | ok r =>
        cases r with
        | none =>
          simp only [add_to_team, if_neg h6, if_neg hdup, hgd]
          exact hinit
        | some p =>
          exfalso
          have hok : (add_to_team core_db species_db s u n).1.isOk = true := by
            simp only [add_to_team, if_neg h6, if_neg hdup, hgd]
            rfl
          rw [hok] at h
          exact Bool.noConfusion h

/-- C7: whenever a team add fails — full team, duplicate lower-cased name,
unresolvable name, or a propagated hydration fault — the team membership
stored for every user is unchanged by the call (for a previously unknown
user the call may materialise the empty team, whose membership is equally
empty). -/
theorem add_to_team_failure_leaves_team_unchanged
    (core_db : String → Option PokemonData) (species_db : String → Option SpeciesData)
    (s : Store) (u n : String)
    (h : (add_to_team core_db species_db s u n).1.isOk = false) :
    ∀ v, ((add_to_team core_db species_db s u n).2 v).getD [] = (s v).getD [] :=
  fun v => add_failure_membership core_db species_db s u n h v

/-- Witness for C7: an unresolvable add against the empty store fails and
leaves the membership of the requesting user empty. -/
theorem add_to_team_failure_leaves_team_unchanged_witness :
    (add_to_team (fun _ => none) demo_species_db emptyStore "ash" "missingno").1.isOk
        = false
      ∧ ((add_to_team (fun _ => none) demo_species_db emptyStore "ash" "missingno").2
            "ash").getD []
          = ((emptyStore "ash").getD []) :=
  ⟨by decide,
   add_to_team_failure_leaves_team_unchanged (fun _ => none) demo_species_db
     emptyStore "ash" "missingno" (by decide) "ash"⟩

theorem add_full_rejects (core_db : String → Option PokemonData)
    (species_db : String → Option SpeciesData) (s : Store) (u n : String)
    (hfull : 6 ≤ ((s u).getD []).length) :
    (add_to_team core_db species_db s u n).1
      = Except.error (Err.http 400 fullTeamMsg) := by
  simp only [add_to_team, initTeam_getD]
  rw [if_pos hfull]

theorem reachable_team_le_six (s : Store) (hs : Reachable s) :
    ∀ u, ((s u).getD []).length ≤ 6 := by
  induction hs with
  | empty => intro u; simp [emptyStore]
  | addStep core_db species_db s0 u0 n0 hr ih =>
    intro u
    by_cases h6 : 6 ≤ (((initTeam s0 u0) u0).getD []).length
    · simp only [add_to_team, if_pos h6]
      rw [initTeam_getD]
      exact ih u
    · by_cases hdup : ((((initTeam s0 u0) u0).getD []).map (fun p => p.name)).contains
          (pyLower n0) = true
      · simp only [add_to_team, if_neg h6, if_pos hdup]
        rw [initTeam_getD]
        exact ih u
      · cases hgd : get_pokemon_details core_db species_db n0 with
        | error e =>
          simp only [add_to_team, if_neg h6, if_neg hdup, hgd]
          rw [initTeam_getD]
          exact ih u
        | ok r =>
          cases r with
          | none =>
            simp only [add_to_team, if_neg h6, if_neg hdup, hgd]
            rw [initTeam_getD]
            exact ih u
          | some p =>
            simp only [add_to_team, if_neg h6, if_neg hdup, hgd]
            by_cases hv : u = u0
            · subst hv
              rw [storeSet_self]
              have hlt : (((initTeam s0 u) u).getD []).length < 6 := Nat.lt_of_not_le h6
              simp only [Option.getD_some, List.length_append, List.length_singleton]
              omega
            · rw [storeSet_other _ _ _ _ hv, initTeam_getD]
              exact ih u
  | removeStep s0 u0 n0 hr ih =>
    intro u
    unfold remove_from_team
    cases hs0 : s0 u0 with
    | none => exact ih u
    | some team =>
      dsimp only
      by_cases hemp : team.isEmpty = true
      · rw [if_pos hemp]
        exact ih u
      · rw [if_neg hemp]
        cases hrm : removeFirstAux team (pyLower n0) with
        | none => exact ih u
        | some nt =>
          dsimp only
          by_cases hv : u = u0
          · subst hv
            rw [storeSet_self]
            have hlen := removeFirstAux_length team (pyLower n0) nt hrm
            have hle := ih u
            rw [hs0] at hle
            simp only [Option.getD_some] at hle ⊢
            omega
          · rw [storeSet_other _ _ _ _ hv]
            exact ih u

/-- C8: in every store state reachable by any sequence of team calls from
the empty store, every user's team has at most 6 members, and an add
against a team already holding at least 6 members fails with the 400
full-team client error. -/
theorem team_capacity_invariant (s : Store) (hs : Reachable s) :
    (∀ u, ((s u).getD []).length ≤ 6)
      ∧ (∀ (core_db : String → Option PokemonData)
            (species_db : String → Option SpeciesData) (u n : String),
          6 ≤ ((s u).getD []).length →
          (add_to_team core_db species_db s u n).1
            = Except.error (Err.http 400 fullTeamMsg)) :=
  ⟨reachable_team_le_six s hs,
   fun core_db species_db u n hfull => add_full_rejects core_db species_db s u n hfull⟩

/-- A core payload with only a name (used to fill a team). -/
def mkCore (i : Nat) (nm : String) : PokemonData :=
  { id := i
    name := nm
    types := [⟨"normal"⟩]
    abilities := []
    stats := []
    sprites_front_default := some "s.png"
    height := 1
    weight := 1 }

/-- A core database resolving the six names `"p1"`..`"p6"`. -/
def sixDb : String → Option PokemonData :=
  fun k =>
    if k == "p1" then some (mkCore 1 "p1")
    else if k == "p2" then some (mkCore 2 "p2")
    else if k == "p3" then some (mkCore 3 "p3")
    else if k == "p4" then some (mkCore 4 "p4")
    else if k == "p5" then some (mkCore 5 "p5")
    else if k == "p6" then some (mkCore 6 "p6")
    else none

/-- One team add against `sixDb` for the user `"red"`. -/
def addSix (s : Store) (n : String) : Store :=
  (add_to_team sixDb demo_species_db s "red" n).2

/-- The store after six successful adds for `"red"`. -/
def store6 : Store :=
  addSix (addSix (addSix (addSix (addSix (addSix emptyStore "p1") "p2") "p3") "p4") "p5") "p6"

theorem store6_reachable : Reachable store6 :=
  Reachable.addStep _ _ _ _ _ (Reachable.addStep _ _ _ _ _ (Reachable.addStep _ _ _ _ _
    (Reachable.addStep _ _ _ _ _ (Reachable.addStep _ _ _ _ _
      (Reachable.addStep _ _ _ _ _ Reachable.empty)))))

/-- Witness for C8: the reachable six-member team for `"red"` respects the
cap, and a seventh add is rejected with the full-team error. -/
theorem team_capacity_invariant_witness :
    ((store6 "red").getD []).length ≤ 6
      ∧ (add_to_team sixDb demo_species_db store6 "red" "p7").1
          = Except.error (Err.http 400 fullTeamMsg) := by
  have h := team_capacity_invariant store6 store6_reachable
  exact ⟨h.1 "red", h.2 sixDb demo_species_db "red" "p7" (by decide)⟩

/-- The store after adding `"pikachu"` to the empty store for `"ash"`. -/
def demoS1 : Store :=
  (add_to_team demo_core_db demo_species_db emptyStore "ash" "pikachu").2

/-- The store after then adding the numeric alias `"25"`, which resolves to
the same pikachu record. -/
def demoS2 : Store :=
  (add_to_team demo_core_db demo_species_db demoS1 "ash" "25").2

/-- C6 counterexample: the duplicate check compares the lower-cased
requested string against the stored names, so supplying the numeric
identifier `"25"` of a member already stored as `"pikachu"` is accepted,
and a reachable state holds two members with the same lowercase name. -/
theorem duplicate_team_members_reachable :
    Reachable demoS2
      ∧ (add_to_team demo_core_db demo_species_db demoS1 "ash" "25").1.isOk = true
      ∧ ((demoS2 "ash").getD []).map (fun p => pyLower p.name)
          = ["pikachu", "pikachu"] := by
  refine ⟨?_, by decide, by decide⟩
  exact Reachable.addStep _ _ _ _ _ (Reachable.addStep _ _ _ _ _ Reachable.empty)

/-- C6 amended: team add rejects a request exactly when the lower-cased
caller-supplied string equals the stored name of an existing member (this
covers resubmitting the stored name in any casing), leaving every
membership unchanged; a different alias of the same entity — such as its
numeric identifier — is not caught by the check, so lowercase-name
uniqueness is not an invariant of reachable states. -/
theorem add_rejects_matching_supplied_name
    (core_db : String → Option PokemonData) (species_db : String → Option SpeciesData)
    (s : Store) (u n : String)
    (hlen : ((s u).getD []).length < 6)
    (hdup : (((s u).getD []).map (fun p => p.name)).contains (pyLower n) = true) :
    (add_to_team core_db species_db s u n).1
        = Except.error (Err.http 400
            ("Pokemon " ++ n ++ " is already in your team"))
      ∧ ∀ v, ((add_to_team core_db species_db s u n).2 v).getD [] = (s v).getD [] := by
  have h6 : ¬ 6 ≤ (((initTeam s u) u).getD []).length := by
    rw [initTeam_getD]
    omega
  have hdup2 : ((((initTeam s u) u).getD []).map (fun p => p.name)).contains
      (pyLower n) = true := by
    rw [initTeam_getD]
    exact hdup
  constructor
  · simp only [add_to_team, if_neg h6, if_pos hdup2]
  · intro v
    simp only [add_to_team, if_neg h6, if_pos hdup2]
    exact initTeam_getD s u v

/-- Witness for C6 amended: resubmitting the stored member under the
casing `"PIKACHU"` is rejected with the duplicate error. -/
theorem add_rejects_matching_supplied_name_witness :
    (add_to_team demo_core_db demo_species_db demoS1 "ash" "PIKACHU").1
      = Except.error (Err.http 400
          ("Pokemon " ++ "PIKACHU" ++ " is already in your team")) :=
  (add_rejects_matching_supplied_name demo_core_db demo_species_db demoS1
      "ash" "PIKACHU" (by decide) (by decide)).1

end PokeMain
